import Mathlib

/-!
Verification of the SOGAS-RH authentication core.

Shallow embedding of the authentication subsystem:
- the JWT layer (`src/services/token.service.ts`, class `TokenService`,
  on top of the `jsonwebtoken` library semantics),
- the Prisma-backed stores (`src/config/auth.ts`: `PrismaUserRepository`,
  `PrismaSessionStore`, `PrismaRevocationStore`),
- the orchestrator (`src/services/auth.service.ts`, class `AuthService`),
- the HTTP boundary (`src/controllers/auth.controller.ts`,
  `buildAuthController`).

Modelling conventions:
- machine time is a `Nat` (milliseconds since epoch); `Date` values become
  `Nat`, the optional `revokedAt` becomes `Option Nat`;
- JavaScript exceptions become `Except String` values carrying the message
  of the thrown `Error`; stateful methods thread an explicit `AuthState`;
- `crypto.randomUUID()` results and Prisma-generated row ids are passed in
  as explicit parameters (`freshJti`, `freshSessionId`, `newJti`);
- the Prisma tables become association lists keyed exactly as the queries
  key them (users by unique email for `findByEmail`, sessions by id,
  revoked tokens as a list of jti values);
- a signed JWT is represented symbolically: the payload together with the
  signing secret, issuer, audience and expiry instant; `jwt.verify`
  succeeds exactly when the secret matches, the token is unexpired and the
  issuer and audience match, failing with `TokenExpiredError` only when
  the signature is valid but the expiry has passed (the order used by the
  `jsonwebtoken` library: signature, then expiry, then issuer/audience).
-/

namespace SogasAuth

/-- Payload fields a signed JWT of this system can carry.  Fields that a
given token kind does not set (for example `sessionId` on an access token)
default to the empty string / empty list, matching an absent JSON claim. -/
structure JwtClaims where
  sub : String := ""
  email : String := ""
  roleIds : List String := []
  permissions : List String := []
  sessionId : String := ""
  jti : String := ""
  type : String := ""
deriving DecidableEq, Repr, Inhabited

/-- A token string, modelled symbolically: either a well-formed JWT (payload
plus the secret it was signed with, issuer, audience and expiry instant) or
a structurally malformed string. -/
inductive JwtToken where
  | signed (claims : JwtClaims) (secret : String) (iss : String) (aud : String)
      (exp : Nat)
  | malformed (raw : String)
deriving DecidableEq, Repr, Inhabited

/-- The two error classes of the `jsonwebtoken` library that the token
service distinguishes: `TokenExpiredError` and every other
`JsonWebTokenError` (bad signature, bad structure, bad issuer/audience). -/
inductive JwtError where
  | expired
  | invalid
deriving DecidableEq, Repr

/-- Semantics of `jwt.verify(token, secret, { issuer, audience })` at clock
instant `now`: signature first, then expiry, then issuer/audience. -/
def jwtVerify (tok : JwtToken) (secret iss aud : String) (now : Nat) :
    Except JwtError JwtClaims :=
  match tok with
  | .malformed _ => .error .invalid
  | .signed claims tokSecret tokIss tokAud exp =>
    if tokSecret ≠ secret then .error .invalid
    else if exp ≤ now then .error .expired
    else if tokIss ≠ iss ∨ tokAud ≠ aud then .error .invalid
    else .ok claims

/-- Configuration of `TokenService` (`src/services/token.service.ts`,
constructor): two signing secrets and two lifetimes. -/
structure TokenService where
  accessSecret : String
  refreshSecret : String
  accessExpiresIn : Nat
  refreshExpiresIn : Nat
deriving DecidableEq, Repr

/-- Argument/result record of `generateAccessToken` / `verifyAccessToken`. -/
structure AccessPayload where
  userId : String
  email : String
  roleIds : List String
  permissions : List String
deriving DecidableEq, Repr, Inhabited

/-- Argument/result record of `generateRefreshToken` / `verifyRefreshToken`. -/
structure RefreshPayload where
  userId : String
  sessionId : String
  jti : String
deriving DecidableEq, Repr, Inhabited

/-- `TokenService.generateAccessToken`: signs
`{ sub, email, roleIds, permissions, type: "access" }` with the access
secret, issuer `sogas-rh`, audience `sogas-rh-api`, expiring
`accessExpiresIn` after `now`. -/
def TokenService.generateAccessToken (ts : TokenService) (p : AccessPayload)
    (now : Nat) : JwtToken :=
  .signed
    { sub := p.userId, email := p.email, roleIds := p.roleIds,
      permissions := p.permissions, type := "access" }
    ts.accessSecret "sogas-rh" "sogas-rh-api" (now + ts.accessExpiresIn)

/-- `TokenService.generateRefreshToken`: signs
`{ sub, sessionId, jti, type: "refresh" }` with the refresh secret, issuer
`sogas-rh`, audience `sogas-rh-api`, expiring `refreshExpiresIn` after
`now`. -/
def TokenService.generateRefreshToken (ts : TokenService) (p : RefreshPayload)
    (now : Nat) : JwtToken :=
  .signed
    { sub := p.userId, sessionId := p.sessionId, jti := p.jti,
      type := "refresh" }
    ts.refreshSecret "sogas-rh" "sogas-rh-api" (now + ts.refreshExpiresIn)

/-- `TokenService.verifyAccessToken`: runs `jwt.verify` with the access
secret, then checks the `type` discriminator inside the same `try` block.
The catch clause maps `TokenExpiredError` to `Error("TOKEN_EXPIRED")` and
other `JsonWebTokenError`s to `Error("INVALID_TOKEN")`; the plain
`Error("Invalid token type")` thrown by the type check is rethrown
unchanged. -/
def TokenService.verifyAccessToken (ts : TokenService) (tok : JwtToken)
    (now : Nat) : Except String AccessPayload :=
  match jwtVerify tok ts.accessSecret "sogas-rh" "sogas-rh-api" now with
  | .error .expired => .error "TOKEN_EXPIRED"
  | .error .invalid => .error "INVALID_TOKEN"
  | .ok decoded =>
    if decoded.type ≠ "access" then .error "Invalid token type"
    else .ok { userId := decoded.sub, email := decoded.email,
               roleIds := decoded.roleIds, permissions := decoded.permissions }

/-- `TokenService.verifyRefreshToken`: same shape as `verifyAccessToken`
but with the refresh secret and the `refresh` type discriminator. -/
def TokenService.verifyRefreshToken (ts : TokenService) (tok : JwtToken)
    (now : Nat) : Except String RefreshPayload :=
  match jwtVerify tok ts.refreshSecret "sogas-rh" "sogas-rh-api" now with
  | .error .expired => .error "TOKEN_EXPIRED"
  | .error .invalid => .error "INVALID_TOKEN"
  | .ok decoded =>
    if decoded.type ≠ "refresh" then .error "Invalid token type"
    else .ok { userId := decoded.sub, sessionId := decoded.sessionId,
               jti := decoded.jti }

/-- `UserRecord` from `src/services/auth.service.ts`. -/
structure UserRecord where
  id : String
  email : String
  passwordHash : String
  roleIds : List String
  permissions : List String
deriving DecidableEq, Repr, Inhabited

/-- `SessionRecord` from `src/services/auth.service.ts`; `revokedAt?: Date`
becomes `Option Nat`. -/
structure SessionRecord where
  id : String
  userId : String
  currentRefreshJti : String
  createdAt : Nat
  revokedAt : Option Nat
deriving DecidableEq, Repr, Inhabited

/-- The durable state behind the three Prisma-backed stores of
`src/config/auth.ts`: the user table (unique email), the session table
(unique id) and the revoked-token table (unique jti). -/
structure AuthState where
  users : List UserRecord
  sessions : List SessionRecord
  revokedJtis : List String
deriving DecidableEq, Repr, Inhabited

/-- `PrismaUserRepository.findByEmail`: unique lookup keyed by email. -/
def UserRepository.findByEmail (st : AuthState) (email : String) :
    Option UserRecord :=
  st.users.find? (fun u => u.email == email)

/-- `PrismaSessionStore.get`: unique lookup keyed by session id. -/
def SessionStore.get (st : AuthState) (sessionId : String) :
    Option SessionRecord :=
  st.sessions.find? (fun s => s.id == sessionId)

/-- `PrismaSessionStore.create`: inserts a fresh session row with the given
initial jti and no revocation timestamp.  The Prisma-generated row id is
passed in as `freshSessionId`. -/
def SessionStore.create (st : AuthState) (userId refreshJti : String)
    (freshSessionId : String) (now : Nat) : SessionRecord × AuthState :=
  let s : SessionRecord :=
    { id := freshSessionId, userId := userId,
      currentRefreshJti := refreshJti, createdAt := now, revokedAt := none }
  (s, { st with sessions := s :: st.sessions })

/-- `PrismaSessionStore.setRefreshJti`: `prisma.session.update` overwriting
`currentRefreshJti` of the row with the given id. -/
def SessionStore.setRefreshJti (st : AuthState) (sessionId newJti : String) :
    AuthState :=
  { st with
    sessions := st.sessions.map (fun s =>
      if s.id == sessionId then { s with currentRefreshJti := newJti }
      else s) }

/-- `PrismaSessionStore.revoke`: `prisma.session.update` setting
`revokedAt: new Date()` on the row with the given id — unconditionally, so
an already-set revocation timestamp is overwritten with the current time. -/
def SessionStore.revoke (st : AuthState) (sessionId : String) (now : Nat) :
    AuthState :=
  { st with
    sessions := st.sessions.map (fun s =>
      if s.id == sessionId then { s with revokedAt := some now } else s) }

/-- `PrismaRevocationStore.isRevoked`: membership in the revoked-token
table. -/
def RevocationStore.isRevoked (st : AuthState) (jti : String) : Bool :=
  st.revokedJtis.contains jti

/-- `PrismaRevocationStore.revoke`: `prisma.revokedToken.upsert` — inserts
the jti if absent, leaves the table unchanged if already present. -/
def RevocationStore.revoke (st : AuthState) (jti : String) : AuthState :=
  if st.revokedJtis.contains jti then st
  else { st with revokedJtis := jti :: st.revokedJtis }

/-- The `user` summary of `LoginResponse`. -/
structure UserSummary where
  id : String
  email : String
  roleIds : List String
  permissions : List String
deriving DecidableEq, Repr, Inhabited

/-- The `tokens` pair of `LoginResponse`. -/
structure TokenPair where
  accessToken : JwtToken
  refreshToken : JwtToken
deriving DecidableEq, Repr, Inhabited

/-- `LoginResponse` from `src/services/auth.service.ts`. -/
structure LoginResponse where
  user : UserSummary
  tokens : TokenPair
deriving DecidableEq, Repr, Inhabited

/-- `RefreshResponse` from `src/services/auth.service.ts`. -/
structure RefreshResponse where
  accessToken : JwtToken
  refreshToken : JwtToken
deriving DecidableEq, Repr, Inhabited

/-- `AuthService.loginWithPassword`.  The bcrypt comparison
`hashService.verify` is the opaque external capability `hverify`; the
`crypto.randomUUID()` result and the Prisma-generated session row id are
the parameters `freshJti` and `freshSessionId`.  Errors carry the message
of the thrown `Error`; the second component is the store state after the
call (unchanged on the failure paths, which occur before any write). -/
def AuthService.loginWithPassword (ts : TokenService)
    (hverify : String → String → Bool) (st : AuthState)
    (email password freshJti freshSessionId : String) (now : Nat) :
    Except String LoginResponse × AuthState :=
  match UserRepository.findByEmail st email with
  | none => (.error "INVALID_CREDENTIALS", st)
  | some user =>
    if ¬ hverify password user.passwordHash then
      (.error "INVALID_CREDENTIALS", st)
    else
      let created := SessionStore.create st user.id freshJti freshSessionId now
      let session := created.1
      let st1 := created.2
      let accessToken := ts.generateAccessToken
        { userId := user.id, email := user.email, roleIds := user.roleIds,
          permissions := user.permissions } now
      let refreshToken := ts.generateRefreshToken
        { userId := user.id, sessionId := session.id, jti := freshJti } now
      (.ok
        { user := { id := user.id, email := user.email,
                    roleIds := user.roleIds, permissions := user.permissions },
          tokens := { accessToken := accessToken,
                      refreshToken := refreshToken } }, st1)

/-- `AuthService.refreshTokens`.  Mirrors the source step by step:
1. verify the token, collapsing ANY verification failure to
   `INVALID_TOKEN` (the catch block is a catch-all);
2. ledger check → `TOKEN_REVOKED`;
3. session lookup → `SESSION_NOT_FOUND`;
4. session revocation check → `SESSION_REVOKED`;
5. reuse check: on jti mismatch revoke the session and ledger the
   presented jti, then fail `TOKEN_REUSE_DETECTED`;
6. load the user via `findByEmail(payload.userId)` — the email-keyed
   lookup applied to a user id, exactly as in the source — failing
   `USER_NOT_FOUND`;
7. ledger the presented jti; 8.-9. rotate the session jti to `newJti`
   (the fresh `crypto.randomUUID()` value); 10. issue the new tokens. -/
def AuthService.refreshTokens (ts : TokenService) (st : AuthState)
    (refreshToken : JwtToken) (newJti : String) (now : Nat) :
    Except String RefreshResponse × AuthState :=
  match ts.verifyRefreshToken refreshToken now with
  | .error _ => (.error "INVALID_TOKEN", st)
  | .ok payload =>
    if RevocationStore.isRevoked st payload.jti then
      (.error "TOKEN_REVOKED", st)
    else
      match SessionStore.get st payload.sessionId with
      | none => (.error "SESSION_NOT_FOUND", st)
      | some session =>
        if session.revokedAt.isSome then (.error "SESSION_REVOKED", st)
        else if session.currentRefreshJti ≠ payload.jti then
          let st1 := SessionStore.revoke st session.id now
          let st2 := RevocationStore.revoke st1 payload.jti
          (.error "TOKEN_REUSE_DETECTED", st2)
        else
          match UserRepository.findByEmail st payload.userId with
          | none => (.error "USER_NOT_FOUND", st)
          | some user =>
            let st1 := RevocationStore.revoke st payload.jti
            let st2 := SessionStore.setRefreshJti st1 session.id newJti
            let accessToken := ts.generateAccessToken
              { userId := user.id, email := user.email,
                roleIds := user.roleIds, permissions := user.permissions } now
            let newRefreshToken := ts.generateRefreshToken
              { userId := user.id, sessionId := session.id,
                jti := newJti } now
            (.ok { accessToken := accessToken,
                   refreshToken := newRefreshToken }, st2)

/-- `AuthService.logout`: look the session up; if absent return silently
(idempotent); otherwise revoke the session and, when the current jti is a
truthy (non-empty) string, ledger it.  Never throws. -/
def AuthService.logout (st : AuthState) (sessionId : String) (now : Nat) :
    AuthState :=
  match SessionStore.get st sessionId with
  | none => st
  | some session =>
    let st1 := SessionStore.revoke st sessionId now
    if session.currentRefreshJti ≠ "" then
      RevocationStore.revoke st1 session.currentRefreshJti
    else st1

/-- `AuthService.logoutWithToken`: verify the refresh token to recover the
session id, swallowing any verification failure as a no-op. -/
def AuthService.logoutWithToken (ts : TokenService) (st : AuthState)
    (refreshToken : JwtToken) (now : Nat) : AuthState :=
  match ts.verifyRefreshToken refreshToken now with
  | .error _ => st
  | .ok payload => AuthService.logout st payload.sessionId now

/-- JavaScript truthiness of an optional string field of a request body:
absent and empty-string values are falsy. -/
def jsTruthy : Option String → Bool
  | none => false
  | some s => s ≠ ""

/-- HTTP outcome of the login handler. -/
inductive LoginHttpRes where
  | ok200 (tokens : TokenPair) (user : UserSummary)
  | err (status : Nat) (code : String) (message : String)
deriving DecidableEq, Repr

/-- HTTP outcome of the refresh handler. -/
inductive RefreshHttpRes where
  | ok200 (accessToken refreshToken : JwtToken)
  | err (status : Nat) (code : String) (message : String)
deriving DecidableEq, Repr

/-- HTTP outcome of the logout handler: `200 { success: true }` or a 400. -/
inductive LogoutHttpRes where
  | ok200 (success : Bool)
  | err400 (code : String) (message : String)
deriving DecidableEq, Repr

/-- `buildAuthController.login` (`src/controllers/auth.controller.ts`):
field validation, then the service call; `INVALID_CREDENTIALS` maps to
`401 { code: INVALID_CREDENTIALS, message: "Invalid email or password" }`,
any other error to a generic 400. -/
def authController.login (ts : TokenService)
    (hverify : String → String → Bool) (st : AuthState)
    (email password : Option String) (freshJti freshSessionId : String)
    (now : Nat) : LoginHttpRes × AuthState :=
  if ¬ jsTruthy email ∨ ¬ jsTruthy password then
    (.err 400 "BAD_REQUEST" "Email and password are required", st)
  else
    match AuthService.loginWithPassword ts hverify st (email.getD "")
        (password.getD "") freshJti freshSessionId now with
    | (.ok result, st1) => (.ok200 result.tokens result.user, st1)
    | (.error msg, st1) =>
      if msg == "INVALID_CREDENTIALS" then
        (.err 401 "INVALID_CREDENTIALS" "Invalid email or password", st1)
      else (.err 400 "BAD_REQUEST" "Authentication failed", st1)

/-- The error mapping of `buildAuthController.refresh`: the if-chain of its
catch block, keyed on the message of the caught error. -/
def authController.mapRefreshError (msg : String) : RefreshHttpRes :=
  if msg == "TOKEN_EXPIRED" then
    .err 401 "TOKEN_EXPIRED" "Refresh token expired"
  else if msg == "TOKEN_REVOKED" || msg == "SESSION_REVOKED" then
    .err 401 "TOKEN_REVOKED" "Token has been revoked"
  else if msg == "TOKEN_REUSE_DETECTED" then
    .err 401 "TOKEN_REUSE_DETECTED" "Token reuse detected - session revoked"
  else if msg == "INVALID_TOKEN" then
    .err 401 "INVALID_TOKEN" "Invalid refresh token"
  else .err 400 "BAD_REQUEST" "Token refresh failed"

/-- `buildAuthController.refresh`: field validation, the service call, and
the catch-block error mapping. -/
def authController.refresh (ts : TokenService) (st : AuthState)
    (refreshToken : Option JwtToken) (newJti : String) (now : Nat) :
    RefreshHttpRes × AuthState :=
  match refreshToken with
  | none => (.err 400 "BAD_REQUEST" "Refresh token is required", st)
  | some tok =>
    match AuthService.refreshTokens ts st tok newJti now with
    | (.ok result, st1) => (.ok200 result.accessToken result.refreshToken, st1)
    | (.error msg, st1) => (authController.mapRefreshError msg, st1)

/-- `buildAuthController.logout`: requires at least one of `sessionId` /
`refreshToken` (JavaScript truthiness), prefers the token variant, and
always answers `200 { success: true }` — the catch branch returns the same
success response. -/
def authController.logout (ts : TokenService) (st : AuthState)
    (sessionId : Option String) (refreshToken : Option JwtToken)
    (now : Nat) : LogoutHttpRes × AuthState :=
  if ¬ jsTruthy sessionId ∧ refreshToken.isNone then
    (.err400 "BAD_REQUEST" "Either sessionId or refreshToken is required", st)
  else
    match refreshToken with
    | some tok => (.ok200 true, AuthService.logoutWithToken ts st tok now)
    | none => (.ok200 true, AuthService.logout st (sessionId.getD "") now)

/-! ### Basic lemmas about the store operations -/

/-- A record found by `SessionStore.get` carries the id it was looked up
under. -/
theorem SessionStore.get_some_id {st : AuthState} {sid : String}
    {s : SessionRecord} (h : SessionStore.get st sid = some s) : s.id = sid := by
  have := List.find?_some h
  exact eq_of_beq this

/-- Updating the records matching an id and then looking that id up finds
exactly the updated record, for any id-preserving update `f`. -/
theorem find?_map_update_id (l : List SessionRecord) (sid : String)
    (f : SessionRecord → SessionRecord) (hf : ∀ s, (f s).id = s.id) :
    (l.map (fun s => if s.id == sid then f s else s)).find?
        (fun s => s.id == sid)
      = (l.find? (fun s => s.id == sid)).map f := by
  induction l with
  | nil => rfl
  | cons h t ih =>
    simp only [List.map_cons]
    by_cases hb : h.id = sid
    · have hbt : (h.id == sid) = true := beq_iff_eq.mpr hb
      have hft : ((f h).id == sid) = true := by rw [beq_iff_eq, hf h]; exact hb
      rw [hbt, if_pos rfl,
        List.find?_cons_of_pos (p := fun s : SessionRecord => s.id == sid) _ hft,
        List.find?_cons_of_pos (p := fun s : SessionRecord => s.id == sid) _ hbt]
      rfl
    · have hbf : (h.id == sid) = false := beq_eq_false_iff_ne.mpr hb
      rw [hbf, if_neg (by simp),
        List.find?_cons_of_neg (p := fun s : SessionRecord => s.id == sid) _ (by simp [hbf]),
        List.find?_cons_of_neg (p := fun s : SessionRecord => s.id == sid) _ (by simp [hbf]),
        ih]

/-- `setRefreshJti` rewrites exactly the looked-up record. -/
theorem SessionStore.get_setRefreshJti (st : AuthState) (sid nj : String) :
    SessionStore.get (SessionStore.setRefreshJti st sid nj) sid
      = (SessionStore.get st sid).map
          (fun s => { s with currentRefreshJti := nj }) := by
  unfold SessionStore.get SessionStore.setRefreshJti
  exact find?_map_update_id st.sessions sid
    (fun s => { s with currentRefreshJti := nj }) (fun _ => rfl)

/-- `SessionStore.revoke` rewrites exactly the looked-up record. -/
theorem SessionStore.get_revoke (st : AuthState) (sid : String) (now : Nat) :
    SessionStore.get (SessionStore.revoke st sid now) sid
      = (SessionStore.get st sid).map
          (fun s => { s with revokedAt := some now }) := by
  unfold SessionStore.get SessionStore.revoke
  exact find?_map_update_id st.sessions sid
    (fun s => { s with revokedAt := some now }) (fun _ => rfl)

/-- The ledger write does not touch the session table. -/
theorem RevocationStore.revoke_sessions (st : AuthState) (jti : String) :
    (RevocationStore.revoke st jti).sessions = st.sessions := by
  unfold RevocationStore.revoke
  split <;> rfl

/-- Session lookup is unaffected by a ledger write. -/
theorem SessionStore.get_revocation_revoke (st : AuthState)
    (jti sid : String) :
    SessionStore.get (RevocationStore.revoke st jti) sid
      = SessionStore.get st sid := by
  unfold SessionStore.get
  rw [RevocationStore.revoke_sessions]

/-- The session-table writes do not touch the ledger. -/
theorem SessionStore.setRefreshJti_revokedJtis (st : AuthState)
    (sid nj : String) :
    (SessionStore.setRefreshJti st sid nj).revokedJtis = st.revokedJtis := rfl

/-- `SessionStore.revoke` does not touch the ledger. -/
theorem SessionStore.revoke_revokedJtis (st : AuthState) (sid : String)
    (now : Nat) :
    (SessionStore.revoke st sid now).revokedJtis = st.revokedJtis := rfl

/-- A jti just written to the ledger is reported revoked. -/
theorem RevocationStore.isRevoked_revoke_self (st : AuthState)
    (jti : String) :
    RevocationStore.isRevoked (RevocationStore.revoke st jti) jti = true := by
  unfold RevocationStore.isRevoked RevocationStore.revoke
  split
  · assumption
  · simp

/-- Ledger writes preserve existing ledger entries. -/
theorem RevocationStore.isRevoked_revoke_of {st : AuthState} {c : String}
    (jti : String) (h : RevocationStore.isRevoked st c = true) :
    RevocationStore.isRevoked (RevocationStore.revoke st jti) c = true := by
  unfold RevocationStore.isRevoked RevocationStore.revoke
  split
  · exact h
  · simp only [List.contains_cons, Bool.or_eq_true]
    right
    exact h

/-! ### Basic lemmas about the token layer -/

/-- A refresh token issued at `tIss` still verifies at any `tUse` before its
expiry, decoding to exactly the payload it was generated from. -/
theorem TokenService.verifyRefreshToken_generated (ts : TokenService)
    (p : RefreshPayload) (tIss tUse : Nat)
    (h : tUse < tIss + ts.refreshExpiresIn) :
    ts.verifyRefreshToken (ts.generateRefreshToken p tIss) tUse
      = .ok { userId := p.userId, sessionId := p.sessionId, jti := p.jti } := by
  unfold TokenService.verifyRefreshToken TokenService.generateRefreshToken
    jwtVerify
  simp [Nat.not_le.mpr h]

/-- A refresh token issued at `tIss` fails verification as expired at any
`tUse` from its expiry instant on. -/
theorem TokenService.verifyRefreshToken_expired (ts : TokenService)
    (p : RefreshPayload) (tIss tUse : Nat)
    (h : tIss + ts.refreshExpiresIn ≤ tUse) :
    ts.verifyRefreshToken (ts.generateRefreshToken p tIss) tUse
      = .error "TOKEN_EXPIRED" := by
  unfold TokenService.verifyRefreshToken TokenService.generateRefreshToken
    jwtVerify
  simp [h]

/-- If verification of a generated refresh token returns a payload at all,
it is the payload the token was generated from. -/
theorem TokenService.verifyRefreshToken_generated_shape {ts : TokenService}
    {p q : RefreshPayload} {tIss tUse : Nat}
    (h : ts.verifyRefreshToken (ts.generateRefreshToken p tIss) tUse
      = .ok q) :
    q = { userId := p.userId, sessionId := p.sessionId, jti := p.jti } := by
  by_cases hexp : tIss + ts.refreshExpiresIn ≤ tUse
  · rw [TokenService.verifyRefreshToken_expired ts p tIss tUse hexp] at h
    cases h
  · rw [TokenService.verifyRefreshToken_generated ts p tIss tUse
      (Nat.not_le.mp hexp)] at h
    exact (Except.ok.inj h).symm

/-! ### Characterization of the orchestrator paths -/

/-- Anatomy of a successful `refreshTokens` call: every guard passed, and
the resulting state is the input state with the presented jti added to the
ledger and the session rotated to the new jti; the returned refresh token
embeds the new jti and the session id. -/
theorem AuthService.refreshTokens_ok {ts : TokenService} {st : AuthState}
    {tok : JwtToken} {nj : String} {now : Nat} {resp : RefreshResponse}
    {st2 : AuthState}
    (h : AuthService.refreshTokens ts st tok nj now = (Except.ok resp, st2)) :
    ∃ payload session user,
      ts.verifyRefreshToken tok now = Except.ok payload ∧
      RevocationStore.isRevoked st payload.jti = false ∧
      SessionStore.get st payload.sessionId = some session ∧
      session.revokedAt = none ∧
      session.currentRefreshJti = payload.jti ∧
      UserRepository.findByEmail st payload.userId = some user ∧
      st2 = SessionStore.setRefreshJti
        (RevocationStore.revoke st payload.jti) session.id nj ∧
      resp.refreshToken = ts.generateRefreshToken
        { userId := user.id, sessionId := session.id, jti := nj } now := by
  unfold AuthService.refreshTokens at h
  cases hv : ts.verifyRefreshToken tok now with
  | error e => rw [hv] at h; simp at h
  | ok payload =>
    rw [hv] at h
    dsimp only at h
    cases hrev : RevocationStore.isRevoked st payload.jti with
    | true => rw [hrev] at h; simp at h
    | false =>
      rw [hrev] at h
      simp only [Bool.false_eq_true, if_false] at h
      cases hs : SessionStore.get st payload.sessionId with
      | none => rw [hs] at h; simp at h
      | some session =>
        rw [hs] at h
        dsimp only at h
        cases hra : session.revokedAt with
        | some t => rw [hra] at h; simp at h
        | none =>
          rw [hra] at h
          simp only [Option.isSome_none, Bool.false_eq_true, if_false] at h
          by_cases hcur : session.currentRefreshJti = payload.jti
          · rw [if_neg (not_not_intro hcur)] at h
            cases hu : UserRepository.findByEmail st payload.userId with
            | none => rw [hu] at h; simp at h
            | some user =>
              rw [hu] at h
              simp only [Prod.mk.injEq, Except.ok.injEq] at h
              obtain ⟨h1, h2⟩ := h
              exact ⟨payload, session, user, rfl, hrev, hs, hra, hcur, hu,
                h2.symm, by rw [← h1]⟩
          · rw [if_pos hcur] at h
            simp at h

/-- Anatomy of a successful `loginWithPassword` call: the user was found by
email, the password verified, one fresh unrevoked session row was inserted,
and the issued refresh token embeds the fresh session id and jti. -/
theorem AuthService.loginWithPassword_ok {ts : TokenService}
    {hverify : String → String → Bool} {st : AuthState}
    {email password freshJti freshSessionId : String} {now : Nat}
    {r : LoginResponse} {st2 : AuthState}
    (h : AuthService.loginWithPassword ts hverify st email password freshJti
      freshSessionId now = (Except.ok r, st2)) :
    ∃ user,
      UserRepository.findByEmail st email = some user ∧
      hverify password user.passwordHash = true ∧
      st2 = { st with sessions :=
        { id := freshSessionId, userId := user.id,
          currentRefreshJti := freshJti, createdAt := now,
          revokedAt := none } :: st.sessions } ∧
      r.tokens.refreshToken = ts.generateRefreshToken
        { userId := user.id, sessionId := freshSessionId,
          jti := freshJti } now := by
  unfold AuthService.loginWithPassword at h
  cases hu : UserRepository.findByEmail st email with
  | none => rw [hu] at h; simp at h
  | some user =>
    rw [hu] at h
    dsimp only at h
    by_cases hvf : hverify password user.passwordHash
    · rw [if_neg (not_not_intro hvf)] at h
      unfold SessionStore.create at h
      simp only [Prod.mk.injEq, Except.ok.injEq] at h
      obtain ⟨h1, h2⟩ := h
      refine ⟨user, rfl, hvf, h2.symm, ?_⟩
      rw [← h1]
    · rw [if_pos hvf] at h
      simp at h

/-- Presenting a refresh token whose jti is already in the ledger fails
`TOKEN_REVOKED` without touching the state (provided the token itself still
verifies). -/
theorem AuthService.refreshTokens_ledger_revoked (ts : TokenService)
    (st : AuthState) (p : RefreshPayload) (tIss tUse : Nat) (nj : String)
    (hfresh : tUse < tIss + ts.refreshExpiresIn)
    (hrev : RevocationStore.isRevoked st p.jti = true) :
    AuthService.refreshTokens ts st (ts.generateRefreshToken p tIss) nj tUse
      = (Except.error "TOKEN_REVOKED", st) := by
  unfold AuthService.refreshTokens
  rw [TokenService.verifyRefreshToken_generated ts p tIss tUse hfresh]
  dsimp only
  rw [hrev]
  simp

/-! ### Sequential refresh chains (for the rotation-monotonicity claim) -/

/-- Ledger reads are unaffected by session-table writes. -/
theorem RevocationStore.isRevoked_setRefreshJti (st : AuthState)
    (sid nj c : String) :
    RevocationStore.isRevoked (SessionStore.setRefreshJti st sid nj) c
      = RevocationStore.isRevoked st c := rfl

/-- Runs a sequence of `refreshTokens` calls.  Each list entry supplies the
fresh jti (`crypto.randomUUID()`) and the clock instant of one call; each
call presents the refresh token returned by the previous one.  Returns
`none` as soon as one call fails. -/
def runRefreshes (ts : TokenService) :
    AuthState → JwtToken → List (String × Nat) → Option (AuthState × JwtToken)
  | st, tok, [] => some (st, tok)
  | st, tok, (nj, now) :: rest =>
    match AuthService.refreshTokens ts st tok nj now with
    | (Except.ok resp, st2) => runRefreshes ts st2 resp.refreshToken rest
    | (Except.error _, _) => none

/-- The jti embedded in the last issued refresh token after running the
given steps, starting from a token embedding `curJti`. -/
def finalJti : String → List (String × Nat) → String
  | curJti, [] => curJti
  | _, (nj, _) :: rest => finalJti nj rest

/-- The jti values consumed by running the given steps, accumulated onto
`consumed`, starting from a token embedding `curJti`. -/
def consumedJtis : String → List String → List (String × Nat) → List String
  | _, consumed, [] => consumed
  | curJti, consumed, (nj, _) :: rest => consumedJtis nj (curJti :: consumed) rest

/-- Invariant carried along a chain of successful refreshes on session
`sid`: the token in hand is a generated refresh token embedding `sid` and
the current jti, the session row still holds that jti and is unrevoked,
and every consumed jti is in the ledger. -/
def ChainInv (ts : TokenService) (sid : String) (st : AuthState)
    (tok : JwtToken) (curJti : String) (consumed : List String) : Prop :=
  (∃ uid tIss, tok = ts.generateRefreshToken
      { userId := uid, sessionId := sid, jti := curJti } tIss) ∧
  (∃ s, SessionStore.get st sid = some s ∧
      s.currentRefreshJti = curJti ∧ s.revokedAt = none) ∧
  (∀ c ∈ consumed, RevocationStore.isRevoked st c = true)

/-- One successful refresh preserves the chain invariant, rotating the
current jti to the fresh one and consuming the previous one. -/
theorem ChainInv.step {ts : TokenService} {sid : String} {st : AuthState}
    {tok : JwtToken} {curJti : String} {consumed : List String}
    {nj : String} {now : Nat} {resp : RefreshResponse} {st2 : AuthState}
    (hinv : ChainInv ts sid st tok curJti consumed)
    (hok : AuthService.refreshTokens ts st tok nj now
      = (Except.ok resp, st2)) :
    ChainInv ts sid st2 resp.refreshToken nj (curJti :: consumed) := by
  obtain ⟨⟨uid, tIss, htok⟩, ⟨s, hs, hsj, hsr⟩, hcons⟩ := hinv
  obtain ⟨payload, session, user, hver, hledger, hsess, hra, hcur, huser,
    hst2, hresp⟩ := AuthService.refreshTokens_ok hok
  have hshape : payload
      = { userId := uid, sessionId := sid, jti := curJti } := by
    subst htok
    exact TokenService.verifyRefreshToken_generated_shape hver
  subst hshape
  dsimp only at hledger hsess huser hst2 hresp
  have hse : s = session := Option.some.inj (hs.symm.trans hsess)
  subst hse
  have hsid : s.id = sid := SessionStore.get_some_id hsess
  rw [hsid] at hst2 hresp
  refine ⟨⟨user.id, now, ?_⟩, ⟨{ s with currentRefreshJti := nj }, ?_, rfl, hsr⟩, ?_⟩
  · rw [hresp]
  · rw [hst2, SessionStore.get_setRefreshJti,
      SessionStore.get_revocation_revoke, hs]
    rfl
  · intro c hc
    rw [hst2, RevocationStore.isRevoked_setRefreshJti]
    rcases List.mem_cons.mp hc with hceq | hcmem
    · subst hceq
      exact RevocationStore.isRevoked_revoke_self st c
    · exact RevocationStore.isRevoked_revoke_of curJti (hcons c hcmem)

/-- The chain invariant propagates along any successful run. -/
theorem runRefreshes_inv (ts : TokenService) (sid : String) :
    ∀ (steps : List (String × Nat)) (st : AuthState) (tok : JwtToken)
      (curJti : String) (consumed : List String) (stN : AuthState)
      (tokN : JwtToken),
      ChainInv ts sid st tok curJti consumed →
      runRefreshes ts st tok steps = some (stN, tokN) →
      ChainInv ts sid stN tokN (finalJti curJti steps)
        (consumedJtis curJti consumed steps) := by
  intro steps
  induction steps with
  | nil =>
    intro st tok curJti consumed stN tokN hinv hrun
    unfold runRefreshes at hrun
    simp only [Option.some.injEq, Prod.mk.injEq] at hrun
    obtain ⟨h1, h2⟩ := hrun
    subst h1
    subst h2
    exact hinv
  | cons step rest ih =>
    intro st tok curJti consumed stN tokN hinv hrun
    obtain ⟨nj, now⟩ := step
    unfold runRefreshes at hrun
    cases hr : AuthService.refreshTokens ts st tok nj now with
    | mk r st2 =>
      rw [hr] at hrun
      cases r with
      | ok resp =>
        dsimp only at hrun
        exact ih st2 resp.refreshToken nj (curJti :: consumed) stN tokN
          (hinv.step hr) hrun
      | error e =>
        dsimp only at hrun
        cases hrun

/-- Closed form of `consumedJtis`: the consumed jtis are the starting jti
followed by all but the last of the step jtis (in reverse order), on top of
the initial accumulator. -/
theorem consumedJtis_eq :
    ∀ (steps : List (String × Nat)) (curJti : String) (consumed : List String),
      consumedJtis curJti consumed steps
        = ((curJti :: steps.map Prod.fst).dropLast).reverse ++ consumed := by
  intro steps
  induction steps with
  | nil => intro c cs; rfl
  | cons step rest ih =>
    intro c cs
    obtain ⟨nj, now⟩ := step
    show consumedJtis nj (c :: cs) rest = _
    rw [ih nj (c :: cs)]
    simp [List.dropLast_cons₂, List.reverse_cons, List.append_assoc]

/-- A refresh call whose token fails verification (for any reason) fails
`INVALID_TOKEN` and leaves the state untouched: the catch block of step 1
is a catch-all. -/
theorem AuthService.refreshTokens_invalid {ts : TokenService}
    {st : AuthState} {tok : JwtToken} {nj : String} {now : Nat} {e : String}
    (h : ts.verifyRefreshToken tok now = Except.error e) :
    AuthService.refreshTokens ts st tok nj now
      = (Except.error "INVALID_TOKEN", st) := by
  unfold AuthService.refreshTokens
  rw [h]

/-- A refresh call on a revoked session fails `SESSION_REVOKED` and leaves
the state untouched (provided the token verifies and its jti is not in the
ledger). -/
theorem AuthService.refreshTokens_session_revoked (ts : TokenService)
    (st : AuthState) (p : RefreshPayload) (tIss tUse t : Nat) (nj : String)
    (s : SessionRecord)
    (hfresh : tUse < tIss + ts.refreshExpiresIn)
    (hled : RevocationStore.isRevoked st p.jti = false)
    (hsess : SessionStore.get st p.sessionId = some s)
    (hrev : s.revokedAt = some t) :
    AuthService.refreshTokens ts st (ts.generateRefreshToken p tIss) nj tUse
      = (Except.error "SESSION_REVOKED", st) := by
  unfold AuthService.refreshTokens
  rw [TokenService.verifyRefreshToken_generated ts p tIss tUse hfresh]
  dsimp only
  rw [hled]
  simp only [Bool.false_eq_true, if_false]
  rw [hsess]
  dsimp only
  rw [hrev]
  simp

/-- The reuse path of `refreshTokens` in closed form: on a jti mismatch the
session is revoked, the presented jti is added to the ledger, and the call
fails `TOKEN_REUSE_DETECTED`. -/
theorem AuthService.refreshTokens_reuse {ts : TokenService} {st : AuthState}
    {tok : JwtToken} {payload : RefreshPayload} {s : SessionRecord}
    {nj : String} {now : Nat}
    (hver : ts.verifyRefreshToken tok now = Except.ok payload)
    (hled : RevocationStore.isRevoked st payload.jti = false)
    (hsess : SessionStore.get st payload.sessionId = some s)
    (hunrev : s.revokedAt = none)
    (hmm : s.currentRefreshJti ≠ payload.jti) :
    AuthService.refreshTokens ts st tok nj now
      = (Except.error "TOKEN_REUSE_DETECTED",
         RevocationStore.revoke (SessionStore.revoke st s.id now)
           payload.jti) := by
  unfold AuthService.refreshTokens
  rw [hver]
  dsimp only
  rw [hled]
  simp only [Bool.false_eq_true, if_false]
  rw [hsess]
  dsimp only
  rw [hunrev]
  simp only [Option.isSome_none, Bool.false_eq_true, if_false]
  rw [if_pos hmm]

/-! ## The claims -/

/-- Claim C1: for every session created by `loginWithPassword` and every
sequence of N ≥ 1 successful sequential `refreshTokens` calls (each
presenting the most recently issued refresh token), the session row ends
holding exactly the jti embedded in the Nth issued refresh token, the
login-issued jti and all N−1 prior refresh jtis are in the Revocation
Ledger, and any later `refreshTokens` call presenting one of those
consumed (still verifiable) tokens fails `TOKEN_REVOKED` or
`TOKEN_REUSE_DETECTED` rather than succeeding. -/
theorem C1_rotation_monotonicity (ts : TokenService)
    (hverify : String → String → Bool) (st0 : AuthState)
    (email password j0 sid : String) (now0 : Nat)
    (lresp : LoginResponse) (st1 : AuthState)
    (steps : List (String × Nat)) (stN : AuthState) (tokN : JwtToken)
    (hlogin : AuthService.loginWithPassword ts hverify st0 email password j0
      sid now0 = (Except.ok lresp, st1))
    (hrun : runRefreshes ts st1 lresp.tokens.refreshToken steps
      = some (stN, tokN))
    (_hne : steps ≠ []) :
    ∃ sN jN uid tIss,
      SessionStore.get stN sid = some sN ∧
      sN.currentRefreshJti = jN ∧
      tokN = ts.generateRefreshToken
        { userId := uid, sessionId := sid, jti := jN } tIss ∧
      (∀ c ∈ (j0 :: steps.map Prod.fst).dropLast,
        RevocationStore.isRevoked stN c = true) ∧
      (∀ c ∈ (j0 :: steps.map Prod.fst).dropLast,
        ∀ (uid2 : String) (tIss2 tUse : Nat) (nj2 : String),
          tUse < tIss2 + ts.refreshExpiresIn →
          (AuthService.refreshTokens ts stN (ts.generateRefreshToken
            { userId := uid2, sessionId := sid, jti := c } tIss2) nj2
              tUse).1 = Except.error "TOKEN_REVOKED" ∨
          (AuthService.refreshTokens ts stN (ts.generateRefreshToken
            { userId := uid2, sessionId := sid, jti := c } tIss2) nj2
              tUse).1 = Except.error "TOKEN_REUSE_DETECTED") := by
  obtain ⟨user, hu, hvpw, hst1, htok⟩ := AuthService.loginWithPassword_ok hlogin
  have hinv0 : ChainInv ts sid st1 lresp.tokens.refreshToken j0 [] := by
    refine ⟨⟨user.id, now0, htok⟩,
      ⟨{ id := sid, userId := user.id, currentRefreshJti := j0,
         createdAt := now0, revokedAt := none }, ?_, rfl, rfl⟩,
      by intro c hc; cases hc⟩
    rw [hst1]
    unfold SessionStore.get
    dsimp only
    rw [List.find?_cons_of_pos (p := fun s : SessionRecord => s.id == sid) _
      (by simp)]
  have hinvN := runRefreshes_inv ts sid steps st1 lresp.tokens.refreshToken
    j0 [] stN tokN hinv0 hrun
  obtain ⟨⟨uid, tIss, htokN⟩, ⟨sN, hsN, hsNj, hsNr⟩, hconsN⟩ := hinvN
  have hmem : ∀ c ∈ (j0 :: steps.map Prod.fst).dropLast,
      RevocationStore.isRevoked stN c = true := by
    intro c hc
    apply hconsN
    rw [consumedJtis_eq, List.append_nil]
    exact List.mem_reverse.mpr hc
  refine ⟨sN, finalJti j0 steps, uid, tIss, hsN, hsNj, htokN, hmem, ?_⟩
  intro c hc uid2 tIss2 tUse nj2 hfresh
  left
  rw [AuthService.refreshTokens_ledger_revoked ts stN
    { userId := uid2, sessionId := sid, jti := c } tIss2 tUse nj2 hfresh
    (hmem c hc)]

/-- Shared concrete token-service configuration for the witnesses: distinct
secrets, access lifetime 10, refresh lifetime 100. -/
def demoTs : TokenService :=
  { accessSecret := "as", refreshSecret := "rs",
    accessExpiresIn := 10, refreshExpiresIn := 100 }

/-- Empty store state, for witnesses. -/
def emptySt : AuthState := { users := [], sessions := [], revokedJtis := [] }

/-- Concrete witness store for C1: one user whose email string equals the
user id, so that the (buggy) email-keyed identity reload of the refresh
flow succeeds and the chain can run. -/
def c1st0 : AuthState :=
  { users := [{ id := "u1", email := "u1", passwordHash := "h",
                roleIds := [], permissions := [] }],
    sessions := [], revokedJtis := [] }

/-- Password verifier accepting everything, for the C1 witness. -/
def c1hv : String → String → Bool := fun _ _ => true

/-- The concrete login call of the C1 witness. -/
def c1login : Except String LoginResponse × AuthState :=
  AuthService.loginWithPassword demoTs c1hv c1st0 "u1" "pw" "j0" "s1" 0

/-- Its login response. -/
def c1lresp : LoginResponse := c1login.1.toOption.getD default

/-- One refresh step: fresh jti `j1` at instant 1. -/
def c1steps : List (String × Nat) := [("j1", 1)]

/-- The concrete refresh chain of the C1 witness. -/
def c1run : Option (AuthState × JwtToken) :=
  runRefreshes demoTs c1login.2 c1lresp.tokens.refreshToken c1steps

/-- Its final state. -/
def c1stN : AuthState := (c1run.getD default).1

/-- Its final token. -/
def c1tokN : JwtToken := (c1run.getD default).2

/-- Witness for C1: the hypotheses of `C1_rotation_monotonicity` hold at
the concrete one-step chain started from a concrete login, and the
conclusion follows by applying the theorem there. -/
theorem C1_rotation_monotonicity_witness :
    (AuthService.loginWithPassword demoTs c1hv c1st0 "u1" "pw" "j0" "s1" 0
      = (Except.ok c1lresp, c1login.2)) ∧
    (runRefreshes demoTs c1login.2 c1lresp.tokens.refreshToken c1steps
      = some (c1stN, c1tokN)) ∧
    c1steps ≠ [] ∧
    (∃ sN jN uid tIss,
      SessionStore.get c1stN "s1" = some sN ∧
      sN.currentRefreshJti = jN ∧
      c1tokN = demoTs.generateRefreshToken
        { userId := uid, sessionId := "s1", jti := jN } tIss ∧
      (∀ c ∈ ("j0" :: c1steps.map Prod.fst).dropLast,
        RevocationStore.isRevoked c1stN c = true) ∧
      (∀ c ∈ ("j0" :: c1steps.map Prod.fst).dropLast,
        ∀ (uid2 : String) (tIss2 tUse : Nat) (nj2 : String),
          tUse < tIss2 + demoTs.refreshExpiresIn →
          (AuthService.refreshTokens demoTs c1stN
            (demoTs.generateRefreshToken
              { userId := uid2, sessionId := "s1", jti := c } tIss2) nj2
                tUse).1 = Except.error "TOKEN_REVOKED" ∨
          (AuthService.refreshTokens demoTs c1stN
            (demoTs.generateRefreshToken
              { userId := uid2, sessionId := "s1", jti := c } tIss2) nj2
                tUse).1 = Except.error "TOKEN_REUSE_DETECTED")) :=
  ⟨by rfl, by rfl, by decide,
    C1_rotation_monotonicity demoTs c1hv c1st0 "u1" "pw" "j0" "s1" 0
      c1lresp c1login.2 c1steps c1stN c1tokN (by rfl) (by rfl)
      (by decide)⟩

/-- Claim C2: whenever a presented refresh token verifies, its jti is not
ledger-revoked and its session exists unrevoked, but the jti differs from
the session's current jti, `refreshTokens` revokes the session, adds the
presented jti to the Revocation Ledger and fails `TOKEN_REUSE_DETECTED`;
and every subsequent refresh attempt presenting any refresh token bound to
that session (old or rotated, with any jti) also fails. -/
theorem C2_reuse_containment (ts : TokenService) (st : AuthState)
    (tok : JwtToken) (payload : RefreshPayload) (s : SessionRecord)
    (nj : String) (now : Nat)
    (hver : ts.verifyRefreshToken tok now = Except.ok payload)
    (hled : RevocationStore.isRevoked st payload.jti = false)
    (hsess : SessionStore.get st payload.sessionId = some s)
    (hunrev : s.revokedAt = none)
    (hmm : s.currentRefreshJti ≠ payload.jti) :
    ∃ st2,
      AuthService.refreshTokens ts st tok nj now
        = (Except.error "TOKEN_REUSE_DETECTED", st2) ∧
      (∃ s2, SessionStore.get st2 payload.sessionId = some s2 ∧
        s2.revokedAt = some now) ∧
      RevocationStore.isRevoked st2 payload.jti = true ∧
      (∀ (uid2 j2 : String) (tIss2 tUse : Nat) (nj2 : String), ∃ e,
        (AuthService.refreshTokens ts st2 (ts.generateRefreshToken
          { userId := uid2, sessionId := payload.sessionId, jti := j2 }
            tIss2) nj2 tUse).1 = Except.error e) := by
  have hsid : s.id = payload.sessionId := SessionStore.get_some_id hsess
  have hsess2 : SessionStore.get st s.id = some s := by rw [hsid]; exact hsess
  refine ⟨RevocationStore.revoke (SessionStore.revoke st s.id now)
    payload.jti, AuthService.refreshTokens_reuse hver hled hsess hunrev hmm,
    ⟨{ s with revokedAt := some now }, ?_, rfl⟩, ?_, ?_⟩
  · rw [SessionStore.get_revocation_revoke, ← hsid, SessionStore.get_revoke,
      hsess2]
    rfl
  · exact RevocationStore.isRevoked_revoke_self _ _
  · intro uid2 j2 tIss2 tUse nj2
    set st2 := RevocationStore.revoke (SessionStore.revoke st s.id now)
      payload.jti with hst2
    by_cases hexp : tIss2 + ts.refreshExpiresIn ≤ tUse
    · exact ⟨"INVALID_TOKEN", by
        rw [AuthService.refreshTokens_invalid
          (TokenService.verifyRefreshToken_expired ts _ tIss2 tUse hexp)]⟩
    · have hfresh : tUse < tIss2 + ts.refreshExpiresIn := Nat.not_le.mp hexp
      by_cases hrev2 : RevocationStore.isRevoked st2 j2 = true
      · exact ⟨"TOKEN_REVOKED", by
          rw [AuthService.refreshTokens_ledger_revoked ts st2
            { userId := uid2, sessionId := payload.sessionId, jti := j2 }
            tIss2 tUse nj2 hfresh hrev2]⟩
      · refine ⟨"SESSION_REVOKED", ?_⟩
        have hget2 : SessionStore.get st2 payload.sessionId
            = some { s with revokedAt := some now } := by
          rw [hst2, SessionStore.get_revocation_revoke, ← hsid,
            SessionStore.get_revoke, hsess2]
          rfl
        rw [AuthService.refreshTokens_session_revoked ts st2
          { userId := uid2, sessionId := payload.sessionId, jti := j2 }
          tIss2 tUse now nj2 { s with revokedAt := some now } hfresh
          (Bool.not_eq_true _ ▸ hrev2) hget2 rfl]

/-- Concrete witness store for C2: one live session holding current jti
`jA`; the attacker replays a token carrying jti `jB`. -/
def c2st : AuthState :=
  { users := [],
    sessions := [{ id := "s1", userId := "u1", currentRefreshJti := "jA",
                   createdAt := 0, revokedAt := none }],
    revokedJtis := [] }

/-- The replayed token of the C2 witness: a genuine refresh token bound to
session `s1` but embedding the already-rotated-away jti `jB`. -/
def c2tok : JwtToken :=
  demoTs.generateRefreshToken
    { userId := "u1", sessionId := "s1", jti := "jB" } 0

/-- Witness for C2: the hypotheses of `C2_reuse_containment` hold at the
concrete mismatching replay, and the conclusion follows by applying the
theorem there. -/
theorem C2_reuse_containment_witness :
    (demoTs.verifyRefreshToken c2tok 1
      = Except.ok { userId := "u1", sessionId := "s1", jti := "jB" }) ∧
    (∃ st2,
      AuthService.refreshTokens demoTs c2st c2tok "jC" 1
        = (Except.error "TOKEN_REUSE_DETECTED", st2) ∧
      (∃ s2, SessionStore.get st2 "s1" = some s2 ∧
        s2.revokedAt = some 1) ∧
      RevocationStore.isRevoked st2 "jB" = true ∧
      (∀ (uid2 j2 : String) (tIss2 tUse : Nat) (nj2 : String), ∃ e,
        (AuthService.refreshTokens demoTs st2 (demoTs.generateRefreshToken
          { userId := uid2, sessionId := "s1", jti := j2 }
            tIss2) nj2 tUse).1 = Except.error e)) :=
  ⟨by rfl,
    C2_reuse_containment demoTs c2st c2tok
      { userId := "u1", sessionId := "s1", jti := "jB" }
      { id := "s1", userId := "u1", currentRefreshJti := "jA",
        createdAt := 0, revokedAt := none }
      "jC" 1 (by rfl) (by decide) (by decide) (by decide) (by decide)⟩

/-- Concrete store for the C3 evidence: a live session whose current jti
matches the presented token, and a user table containing the session owner
under id `u7` — but, of course, no user whose EMAIL is the string `u7`. -/
def c3st : AuthState :=
  { users := [{ id := "u7", email := "alice@x", passwordHash := "h",
                roleIds := [], permissions := [] }],
    sessions := [{ id := "s1", userId := "u7", currentRefreshJti := "j",
                   createdAt := 0, revokedAt := none }],
    revokedJtis := [] }

/-- The presented (legitimate, current) refresh token of the C3 evidence. -/
def c3tok : JwtToken :=
  demoTs.generateRefreshToken
    { userId := "u7", sessionId := "s1", jti := "j" } 0

/-- Claim C3 — evidence of the code bug.  At this input the reuse check has
passed (the presented jti IS the session's current jti), yet the call fails
`USER_NOT_FOUND` with the state completely unchanged: the presented jti is
NOT in the Revocation Ledger when the failure is raised, because the source
revokes it only AFTER loading the identity, and it loads the identity via
`findByEmail(payload.userId)` — an email-keyed lookup given a user id — so
the lookup misses even though a user with that id exists. -/
theorem C3_revocation_ordering_and_lookup :
    AuthService.refreshTokens demoTs c3st c3tok "j1" 1
      = (Except.error "USER_NOT_FOUND", c3st) ∧
    RevocationStore.isRevoked c3st "j" = false ∧
    (∃ u ∈ c3st.users, u.id = "u7") ∧
    UserRepository.findByEmail c3st "u7" = none :=
  ⟨by rfl, by decide, by decide, by rfl⟩

/-- The expired-but-genuine refresh token of the C4 evidence: issued at
instant 0 with lifetime 100, presented at instant 100. -/
def c4tok : JwtToken :=
  demoTs.generateRefreshToken
    { userId := "u1", sessionId := "s1", jti := "j" } 0

/-- Claim C4 — evidence of the code bug.  `verifyRefreshToken` does fail an
expired (signature-valid) token with the distinct kind `TOKEN_EXPIRED`, but
`refreshTokens` converts EVERY verification failure to `INVALID_TOKEN`
through its catch-all, so at the refresh operation the expired case is
conflated with the invalid case — while the HTTP handler still carries a
(now unreachable) branch mapping `TOKEN_EXPIRED` to its own 401 code. -/
theorem C4_expired_conflated_to_invalid :
    demoTs.verifyRefreshToken c4tok 100 = Except.error "TOKEN_EXPIRED" ∧
    AuthService.refreshTokens demoTs emptySt c4tok "nj" 100
      = (Except.error "INVALID_TOKEN", emptySt) ∧
    ("INVALID_TOKEN" : String) ≠ "TOKEN_EXPIRED" ∧
    authController.mapRefreshError "TOKEN_EXPIRED"
      = RefreshHttpRes.err 401 "TOKEN_EXPIRED" "Refresh token expired" :=
  ⟨by rfl, by rfl, by decide, by rfl⟩

/-- Login with an unknown email fails `INVALID_CREDENTIALS`, state
unchanged. -/
theorem AuthService.loginWithPassword_unknown_email {ts : TokenService}
    {hverify : String → String → Bool} {st : AuthState}
    {email password freshJti freshSessionId : String} {now : Nat}
    (h : UserRepository.findByEmail st email = none) :
    AuthService.loginWithPassword ts hverify st email password freshJti
      freshSessionId now = (Except.error "INVALID_CREDENTIALS", st) := by
  unfold AuthService.loginWithPassword
  rw [h]

/-- Login with a known email but failing password check fails
`INVALID_CREDENTIALS`, state unchanged. -/
theorem AuthService.loginWithPassword_wrong_password {ts : TokenService}
    {hverify : String → String → Bool} {st : AuthState}
    {email password freshJti freshSessionId : String} {now : Nat}
    {u : UserRecord}
    (hu : UserRepository.findByEmail st email = some u)
    (hpw : hverify password u.passwordHash = false) :
    AuthService.loginWithPassword ts hverify st email password freshJti
      freshSessionId now = (Except.error "INVALID_CREDENTIALS", st) := by
  unfold AuthService.loginWithPassword
  rw [hu]
  dsimp only
  rw [if_pos (by simp [hpw])]

/-- Claim C5: at the HTTP boundary, a login attempt with a nonexistent
email and a login attempt with an existing email but wrong password
produce literally the same outcome: status 401, code
`INVALID_CREDENTIALS`, message `Invalid email or password` — the two
failure causes are indistinguishable to the caller. -/
theorem C5_credential_failure_indistinguishable (ts : TokenService)
    (hverify : String → String → Bool) (stA stB : AuthState)
    (emailA passwordA emailB passwordB freshJti freshSessionId : String)
    (now : Nat) (u : UserRecord)
    (hA : UserRepository.findByEmail stA emailA = none)
    (hB : UserRepository.findByEmail stB emailB = some u)
    (hpw : hverify passwordB u.passwordHash = false)
    (hAe : emailA ≠ "") (hApw : passwordA ≠ "")
    (hBe : emailB ≠ "") (hBpw : passwordB ≠ "") :
    (authController.login ts hverify stA (some emailA) (some passwordA)
      freshJti freshSessionId now).1
      = LoginHttpRes.err 401 "INVALID_CREDENTIALS"
          "Invalid email or password" ∧
    (authController.login ts hverify stB (some emailB) (some passwordB)
      freshJti freshSessionId now).1
      = LoginHttpRes.err 401 "INVALID_CREDENTIALS"
          "Invalid email or password" := by
  constructor
  · unfold authController.login
    rw [if_neg (by simp [jsTruthy, hAe, hApw])]
    dsimp only [Option.getD]
    rw [AuthService.loginWithPassword_unknown_email hA]
    rfl
  · unfold authController.login
    rw [if_neg (by simp [jsTruthy, hBe, hBpw])]
    dsimp only [Option.getD]
    rw [AuthService.loginWithPassword_wrong_password hB hpw]
    rfl

/-- The existing user of the C5 witness. -/
def c5u : UserRecord :=
  { id := "u2", email := "b@x", passwordHash := "H",
    roleIds := [], permissions := [] }

/-- Store of the C5 witness wrong-password scenario. -/
def c5st : AuthState := { users := [c5u], sessions := [], revokedJtis := [] }

/-- Password verifier rejecting everything, for the C5 witness. -/
def c5hv : String → String → Bool := fun _ _ => false

/-- Witness for C5: concrete unknown-email and wrong-password login
attempts; both yield 401 `INVALID_CREDENTIALS` with the same message, by
applying the theorem. -/
theorem C5_credential_failure_indistinguishable_witness :
    UserRepository.findByEmail emptySt "a@x" = none ∧
    UserRepository.findByEmail c5st "b@x" = some c5u ∧
    c5hv "wrong" c5u.passwordHash = false ∧
    ((authController.login demoTs c5hv emptySt (some "a@x") (some "pw")
      "j" "s" 0).1
      = LoginHttpRes.err 401 "INVALID_CREDENTIALS"
          "Invalid email or password" ∧
    (authController.login demoTs c5hv c5st (some "b@x") (some "wrong")
      "j" "s" 0).1
      = LoginHttpRes.err 401 "INVALID_CREDENTIALS"
          "Invalid email or password") :=
  ⟨by rfl, by rfl, by rfl,
    C5_credential_failure_indistinguishable demoTs c5hv emptySt c5st
      "a@x" "pw" "b@x" "wrong" "j" "s" 0 c5u (by rfl) (by rfl) (by rfl)
      (by decide) (by decide) (by decide) (by decide)⟩

/-- Claim C6: for every store state and (well-formed, non-empty) session
id, the logout endpoint answers `200 { success: true }` — whether or not
the session exists or is already revoked — a second logout with the same
id answers the same, and the answer does not depend on the store state at
all (so it can never reveal whether the session existed). -/
theorem C6_logout_idempotent (ts : TokenService) (st : AuthState)
    (sid : String) (now1 now2 : Nat) (hsid : sid ≠ "") :
    (authController.logout ts st (some sid) none now1).1
      = LogoutHttpRes.ok200 true ∧
    (authController.logout ts
      (authController.logout ts st (some sid) none now1).2
      (some sid) none now2).1 = LogoutHttpRes.ok200 true ∧
    ∀ st2 : AuthState,
      (authController.logout ts st2 (some sid) none now1).1
        = (authController.logout ts st (some sid) none now1).1 := by
  have hres : ∀ (stX : AuthState) (nowX : Nat),
      (authController.logout ts stX (some sid) none nowX).1
        = LogoutHttpRes.ok200 true := by
    intro stX nowX
    unfold authController.logout
    rw [if_neg (by simp [jsTruthy, hsid])]
  exact ⟨hres st now1, hres _ now2,
    fun st2 => (hres st2 now1).trans (hres st now1).symm⟩

/-- Store of the C6 witness: one live session `s1`. -/
def c6st : AuthState :=
  { users := [],
    sessions := [{ id := "s1", userId := "u1", currentRefreshJti := "j",
                   createdAt := 0, revokedAt := none }],
    revokedJtis := [] }

/-- Witness for C6: logging the existing session `s1` out twice succeeds
both times, and logging out the same id on the empty store (session does
not exist) gives the identical response, by applying the theorem. -/
theorem C6_logout_idempotent_witness :
    ("s1" : String) ≠ "" ∧
    (authController.logout demoTs c6st (some "s1") none 3).1
      = LogoutHttpRes.ok200 true ∧
    (authController.logout demoTs
      (authController.logout demoTs c6st (some "s1") none 3).2
      (some "s1") none 4).1 = LogoutHttpRes.ok200 true ∧
    (authController.logout demoTs emptySt (some "s1") none 3).1
      = (authController.logout demoTs c6st (some "s1") none 3).1 :=
  ⟨by decide,
    (C6_logout_idempotent demoTs c6st "s1" 3 4 (by decide)).1,
    (C6_logout_idempotent demoTs c6st "s1" 3 4 (by decide)).2.1,
    (C6_logout_idempotent demoTs c6st "s1" 3 4 (by decide)).2.2 emptySt⟩

/-- Claim C7: under the configuration requirement that the two signing
secrets differ (enforced at startup by `src/config/auth.ts`), an access
token presented to `verifyRefreshToken` is rejected as `INVALID_TOKEN`,
and a refresh token presented to `verifyAccessToken` likewise — never
accepted, at any presentation instant. -/
theorem C7_token_typing (ts : TokenService)
    (hsec : ts.accessSecret ≠ ts.refreshSecret)
    (p : AccessPayload) (q : RefreshPayload) (tIssA tIssR tUse : Nat) :
    ts.verifyRefreshToken (ts.generateAccessToken p tIssA) tUse
      = Except.error "INVALID_TOKEN" ∧
    ts.verifyAccessToken (ts.generateRefreshToken q tIssR) tUse
      = Except.error "INVALID_TOKEN" := by
  constructor
  · unfold TokenService.verifyRefreshToken TokenService.generateAccessToken
      jwtVerify
    dsimp only
    rw [if_pos hsec]
  · unfold TokenService.verifyAccessToken TokenService.generateRefreshToken
      jwtVerify
    dsimp only
    rw [if_pos (Ne.symm hsec)]

/-- Witness for C7: with the concrete distinct-secret configuration, a
concrete access token fed to the refresh verifier (and vice versa) is
rejected `INVALID_TOKEN`, by applying the theorem. -/
theorem C7_token_typing_witness :
    demoTs.accessSecret ≠ demoTs.refreshSecret ∧
    (demoTs.verifyRefreshToken (demoTs.generateAccessToken
      { userId := "u", email := "e", roleIds := [], permissions := [] } 0) 1
      = Except.error "INVALID_TOKEN" ∧
    demoTs.verifyAccessToken (demoTs.generateRefreshToken
      { userId := "u", sessionId := "s", jti := "j" } 0) 1
      = Except.error "INVALID_TOKEN") :=
  ⟨by decide,
    C7_token_typing demoTs (by decide)
      { userId := "u", email := "e", roleIds := [], permissions := [] }
      { userId := "u", sessionId := "s", jti := "j" } 0 0 1⟩

/-- Store of the C8 counterexample: one session already revoked at
instant 5. -/
def c8st : AuthState :=
  { users := [],
    sessions := [{ id := "s1", userId := "u1", currentRefreshJti := "j1",
                   createdAt := 0, revokedAt := some 5 }],
    revokedJtis := [] }

/-- Counterexample to claim C8 as stated: revoking the already-revoked
session `s1` at instant 9 is NOT a no-op — `PrismaSessionStore.revoke`
unconditionally writes `revokedAt: new Date()`, so the stored revocation
timestamp changes from 5 to 9 and the record is not left unchanged. -/
theorem C8_counterexample :
    SessionStore.revoke c8st "s1" 9 ≠ c8st ∧
    SessionStore.get c8st "s1"
      = some { id := "s1", userId := "u1", currentRefreshJti := "j1",
               createdAt := 0, revokedAt := some 5 } ∧
    SessionStore.get (SessionStore.revoke c8st "s1" 9) "s1"
      = some { id := "s1", userId := "u1", currentRefreshJti := "j1",
               createdAt := 0, revokedAt := some 9 } := by decide

/-- Claim C8, amended to what the code does: revoking an already-revoked
session raises no error and the session stays revoked, but the revocation
timestamp is overwritten with the time of the call (all other fields and
tables are left unchanged) — rather than being left unchanged as the claim
stated. -/
theorem C8_amended_revoke_overwrites (st : AuthState) (sid : String)
    (now t : Nat) (s : SessionRecord)
    (hs : SessionStore.get st sid = some s)
    (_hrev : s.revokedAt = some t) :
    SessionStore.get (SessionStore.revoke st sid now) sid
      = some { s with revokedAt := some now } ∧
    (SessionStore.revoke st sid now).revokedJtis = st.revokedJtis ∧
    (SessionStore.revoke st sid now).users = st.users := by
  refine ⟨?_, rfl, rfl⟩
  rw [SessionStore.get_revoke, hs]
  rfl

/-- Witness for the amended C8: applying the amended theorem to the
concrete already-revoked session of the counterexample store. -/
theorem C8_amended_revoke_overwrites_witness :
    SessionStore.get c8st "s1"
      = some { id := "s1", userId := "u1", currentRefreshJti := "j1",
               createdAt := 0, revokedAt := some 5 } ∧
    (SessionStore.get (SessionStore.revoke c8st "s1" 9) "s1"
      = some { id := "s1", userId := "u1", currentRefreshJti := "j1",
               createdAt := 0, revokedAt := some 9 } ∧
    (SessionStore.revoke c8st "s1" 9).revokedJtis = c8st.revokedJtis ∧
    (SessionStore.revoke c8st "s1" 9).users = c8st.users) :=
  ⟨by decide,
    C8_amended_revoke_overwrites c8st "s1" 9 5
      { id := "s1", userId := "u1", currentRefreshJti := "j1",
        createdAt := 0, revokedAt := some 5 } (by decide) (by decide)⟩

/-- Claim C9: whenever `refreshTokens` fails with `INVALID_TOKEN`,
`TOKEN_REVOKED`, `SESSION_NOT_FOUND` or `SESSION_REVOKED`, the store state
is unchanged: these failures occur before any write to the session store
or the revocation ledger. -/
theorem C9_error_paths_pure (ts : TokenService) (st : AuthState)
    (tok : JwtToken) (nj : String) (now : Nat) (e : String)
    (herr : (AuthService.refreshTokens ts st tok nj now).1 = Except.error e)
    (hkind : e = "INVALID_TOKEN" ∨ e = "TOKEN_REVOKED" ∨
      e = "SESSION_NOT_FOUND" ∨ e = "SESSION_REVOKED") :
    (AuthService.refreshTokens ts st tok nj now).2 = st := by
  unfold AuthService.refreshTokens at herr ⊢
  cases hv : ts.verifyRefreshToken tok now with
  | error e2 => rfl
  | ok payload =>
    rw [hv] at herr
    dsimp only at herr ⊢
    cases hrev : RevocationStore.isRevoked st payload.jti with
    | true => rfl
    | false =>
      rw [hrev] at herr
      simp only [Bool.false_eq_true, if_false] at herr ⊢
      cases hs : SessionStore.get st payload.sessionId with
      | none => rfl
      | some s =>
        rw [hs] at herr
        dsimp only at herr ⊢
        cases hra : s.revokedAt with
        | some t => rfl
        | none =>
          rw [hra] at herr
          simp only [Option.isSome_none, Bool.false_eq_true, if_false]
            at herr ⊢
          by_cases hcur : s.currentRefreshJti = payload.jti
          · rw [if_neg (not_not_intro hcur)] at herr ⊢
            cases hu : UserRepository.findByEmail st payload.userId with
            | none => rfl
            | some user =>
              rw [hu] at herr
              simp only at herr
              cases herr
          · rw [if_pos hcur] at herr
            simp only at herr
            have he : e = "TOKEN_REUSE_DETECTED" :=
              (Except.error.inj herr).symm
            subst he
            rcases hkind with h | h | h | h <;> exact absurd h (by decide)

/-- Witness for C9: a concrete malformed-token refresh call fails
`INVALID_TOKEN` and, by the theorem, leaves the empty store unchanged. -/
theorem C9_error_paths_pure_witness :
    (AuthService.refreshTokens demoTs emptySt (JwtToken.malformed "x")
      "j" 0).1 = Except.error "INVALID_TOKEN" ∧
    (AuthService.refreshTokens demoTs emptySt (JwtToken.malformed "x")
      "j" 0).2 = emptySt :=
  ⟨by rfl,
    C9_error_paths_pure demoTs emptySt (JwtToken.malformed "x") "j" 0
      "INVALID_TOKEN" (by rfl) (Or.inl rfl)⟩

/-- Claim C10: a token signed with the very secret a verifier checks,
passing expiry and issuer/audience, but carrying a type discriminator
other than the expected one, makes the verifier throw the plain error
`Invalid token type` — which is neither of the stable kinds
`TOKEN_EXPIRED` / `INVALID_TOKEN`, so the refresh handler error mapping
(which matches only the stable kinds) files it under the generic 400
`BAD_REQUEST`. -/
theorem C10_wrong_type_plain_error (ts : TokenService) (c : JwtClaims)
    (e tUse : Nat) (hexp : tUse < e) :
    (c.type ≠ "access" →
      ts.verifyAccessToken
        (JwtToken.signed c ts.accessSecret "sogas-rh" "sogas-rh-api" e) tUse
        = Except.error "Invalid token type") ∧
    (c.type ≠ "refresh" →
      ts.verifyRefreshToken
        (JwtToken.signed c ts.refreshSecret "sogas-rh" "sogas-rh-api" e) tUse
        = Except.error "Invalid token type") ∧
    ("Invalid token type" : String) ≠ "TOKEN_EXPIRED" ∧
    ("Invalid token type" : String) ≠ "INVALID_TOKEN" ∧
    authController.mapRefreshError "Invalid token type"
      = RefreshHttpRes.err 400 "BAD_REQUEST" "Token refresh failed" := by
  refine ⟨?_, ?_, by decide, by decide, by rfl⟩
  · intro htype
    unfold TokenService.verifyAccessToken jwtVerify
    dsimp only
    rw [if_neg (not_not_intro rfl), if_neg (Nat.not_le.mpr hexp),
      if_neg (by simp)]
    dsimp only
    rw [if_pos htype]
  · intro htype
    unfold TokenService.verifyRefreshToken jwtVerify
    dsimp only
    rw [if_neg (not_not_intro rfl), if_neg (Nat.not_le.mpr hexp),
      if_neg (by simp)]
    dsimp only
    rw [if_pos htype]

/-- Witness for C10: a concrete unexpired token of type `weird`, signed
with each correct secret, is rejected with the plain message, and the
refresh error mapping files that message under the generic 400 — by
applying the theorem. -/
theorem C10_wrong_type_plain_error_witness :
    (1 : Nat) < 10 ∧
    demoTs.verifyAccessToken (JwtToken.signed { type := "weird" }
      demoTs.accessSecret "sogas-rh" "sogas-rh-api" 10) 1
      = Except.error "Invalid token type" ∧
    demoTs.verifyRefreshToken (JwtToken.signed { type := "weird" }
      demoTs.refreshSecret "sogas-rh" "sogas-rh-api" 10) 1
      = Except.error "Invalid token type" ∧
    authController.mapRefreshError "Invalid token type"
      = RefreshHttpRes.err 400 "BAD_REQUEST" "Token refresh failed" :=
  ⟨by decide,
    (C10_wrong_type_plain_error demoTs { type := "weird" } 10 1
      (by decide)).1 (by decide),
    (C10_wrong_type_plain_error demoTs { type := "weird" } 10 1
      (by decide)).2.1 (by decide),
    (C10_wrong_type_plain_error demoTs { type := "weird" } 10 1
      (by decide)).2.2.2.2⟩

end SogasAuth
